import Mathlib

/-!
Shallow embedding of the wallpaper compositor (`src/main.c` of
cocafe/tablet_wallpaper) and proofs about its layout, orientation and
style logic.

Modelling conventions:
* C `int32_t` coordinates and signed intermediates become `Int`;
  `uint32_t` pixel dimensions of images become `Nat` in the style engine
  and `Int` (with non-negativity hypotheses) in the geometry, where the
  source freely mixes them with signed coordinates.
* `abs()` on C ints becomes `Int.natAbs` cast back to `Int`.
* GraphicsMagick wand calls are modelled by their effect on image
  dimensions; fallible calls that the control flow branches on are
  parameters (`readOk`, `canvas_ok`, `write_ok`).  C `double` arithmetic
  in the fit styles is modelled as exact rational arithmetic (`Rat`),
  with the final `(unsigned long)` cast as `Int.floor`/`toNat`.
* Functions that mutate globals become pure functions threading the
  state (`monitors` list, `virtual_desktop` rectangle) explicitly.
-/

/-- `struct line` of main.c: a 1-D interval; `s` and `e` are unordered. -/
structure line where
  s : Int
  e : Int
  deriving DecidableEq

/-- `struct rectangle` of main.c.  `width`/`height` are `uint32_t` in C;
they are modelled as `Int`, and theorems carry non-negativity hypotheses
where the source guarantees it by typing. -/
structure rectangle where
  x : Int
  y : Int
  width : Int
  height : Int
  deriving DecidableEq

/-- The `info` member of `struct monitor`. -/
structure monitor_info where
  x : Int
  y : Int
  width : Int
  height : Int
  orientation : Nat
  is_primary : Bool
  deriving DecidableEq

/-- The `wallpaper` member of `struct monitor`: per-orientation source
paths (`char *files[NUM_MONITOR_ORIENTS]`, `NULL` = `none`),
`auto_rotate` and the style index. -/
structure wallpaper_cfg where
  auto_rotate : Bool
  style : Nat
  bg_color : Option String
  files0 : Option String
  files1 : Option String
  files2 : Option String
  files3 : Option String
  deriving DecidableEq

/-- `files[i]` array access on `wallpaper_cfg`. -/
def wallpaper_cfg.files (w : wallpaper_cfg) : Nat → Option String
  | 0 => w.files0
  | 1 => w.files1
  | 2 => w.files2
  | 3 => w.files3
  | _ => none

/-- `struct monitor` of main.c. -/
structure monitor where
  active : Bool
  info : monitor_info
  virt_pos : Int × Int
  wallpaper : wallpaper_cfg
  deriving DecidableEq

/-- `is_axis_cover_point()` of main.c: whether point `p` lies on the
(unordered, endpoint-inclusive) interval `l`. -/
def is_axis_cover_point (l : line) (p : Int) : Bool :=
  if l.s < l.e then
    decide (l.s ≤ p ∧ p ≤ l.e)
  else
    decide (l.e ≤ p ∧ p ≤ l.s)

/-- `virtual_desktop_size_compute()` of main.c: grow `desk` to hold
`app` (the source calls it `append`).  The source builds lines
`dw/dh/aw/ah` from the two rectangles; they are inlined here.  Returns
the updated `desk` instead of mutating it. -/
def virtual_desktop_size_compute (desk app : rectangle) : rectangle :=
  -- is first monitor
  if desk.width = 0 ∧ desk.height = 0 then
    ⟨app.x, app.y, app.width, app.height⟩
  else
    let deltaW : Int :=
      if is_axis_cover_point ⟨app.x, app.x + app.width⟩ desk.x then
        if is_axis_cover_point ⟨app.x, app.x + app.width⟩ (desk.x + desk.width) then
          desk.width
        else
          ((app.x + app.width - desk.x).natAbs : Int)
      else if is_axis_cover_point ⟨desk.x, desk.x + desk.width⟩ app.x then
        if is_axis_cover_point ⟨desk.x, desk.x + desk.width⟩ (app.x + app.width) then
          app.width
        else
          ((desk.x + desk.width - app.x).natAbs : Int)
      else 0
    let width1 := app.width + desk.width - deltaW
    -- new rectangle point always sits at left-top
    let x1 := if app.x < desk.x then app.x else desk.x
    let deltaH : Int :=
      if is_axis_cover_point ⟨app.y, app.y + app.height⟩ desk.y then
        if is_axis_cover_point ⟨app.y, app.y + app.height⟩ (desk.y + desk.height) then
          desk.height
        else
          ((app.y + app.height - desk.y).natAbs : Int)
      else if is_axis_cover_point ⟨desk.y, desk.y + desk.height⟩ app.y then
        if is_axis_cover_point ⟨desk.y, desk.y + desk.height⟩ (app.y + app.height) then
          app.height
        else
          ((desk.y + desk.height - app.y).natAbs : Int)
      else 0
    let height1 := app.height + desk.height - deltaH
    let y1 := if app.y < desk.y then app.y else desk.y
    ⟨x1, y1, width1, height1⟩

/-- The rectangle appended for a monitor in `virtual_desktop_update()`. -/
def monitor_rect (m : monitor) : rectangle :=
  ⟨m.info.x, m.info.y, m.info.width, m.info.height⟩

/-- `virtual_desktop_update()` of main.c: fold the size computation over
all active monitors, starting from the current (global) rectangle. -/
def virtual_desktop_update (ms : List monitor) (virtdesk : rectangle) : rectangle :=
  ms.foldl
    (fun d m => if m.active then virtual_desktop_size_compute d (monitor_rect m) else d)
    virtdesk

/-- `virtual_desktop_position_reposition()` of main.c: fails with
`-EINVAL` (= -22) on a zero-sized desktop; otherwise rebases every
active monitor's `virt_pos` and zeroes the desktop origin. -/
def virtual_desktop_position_reposition (ms : List monitor) (virtdesk : rectangle) :
    Except Int (List monitor × rectangle) :=
  if virtdesk.height = 0 ∨ virtdesk.width = 0 then
    .error (-22)
  else
    .ok
      (ms.map fun m =>
        if m.active then
          { m with virt_pos := (m.info.x - virtdesk.x, m.info.y - virtdesk.y) }
        else m,
       { virtdesk with x := 0, y := 0 })

/-- `wallpaper_auto_rotate()` of main.c: prefer the flipped orientation
`((orientation * 90 + 180) % 360) / 90`, else scan `files` in order
0, 1, 2, 3; an entry counts as available iff it is non-NULL (`isSome`),
even when it is an empty string.  Returns the chosen orientation index,
`none` for the C return value `-1`. -/
def wallpaper_auto_rotate (m : monitor) : Option Nat :=
  let flip_orient := ((m.info.orientation * 90 + 180) % 360) / 90
  if flip_orient ≥ 4 then none
  -- opposite orientation is preferred
  else if (m.wallpaper.files flip_orient).isSome then some flip_orient
  else if (m.wallpaper.files 0).isSome then some 0
  else if (m.wallpaper.files 1).isSome then some 1
  else if (m.wallpaper.files 2).isSome then some 2
  else if (m.wallpaper.files 3).isSome then some 3
  else none

/-- Source-selection portion of `wallpaper_load()` of main.c (the code
between the orientation check and `MagickReadImage`): the exact slot is
used iff non-NULL and not an empty string (`!wallpaper_path ||
wallpaper_path[0] == '\0'` falls through); otherwise the auto-rotate
path picks a slot by `wallpaper_auto_rotate`.  Returns the chosen path
together with `some alter_orient` when the auto path was taken
(`alter_orient >= 0` in C), `none` when the exact slot was used.
Errors are the C codes: `-61` = `-ENODATA`. -/
def wallpaper_select (m : monitor) : Except Int (String × Option Nat) :=
  let p0 := m.wallpaper.files m.info.orientation
  if p0 = none ∨ p0 = some "" then
    if m.wallpaper.auto_rotate = false then
      .error (-61)
    else
      match wallpaper_auto_rotate m with
      | none => .error (-61)
      | some alt => .ok ((m.wallpaper.files alt).getD "", some alt)
  else
    .ok (p0.getD "", none)

/-- `wallpaper_load()` of main.c, modelled up to the chosen source path
and the rotation that is applied to it.  `readOk` models whether
`MagickReadImage` succeeds on a path; background-colour setup and the
style application are modelled as succeeding.  Error codes as in C:
`-61` = `-ENODATA` (inactive / no source), `-22` = `-EINVAL` (unknown
orientation), `-5` = `-EIO` (read failure).  On success returns the
path and the clockwise rotation in degrees
(`(360 - (alter_orient * 90 - orient * 90)) % 360`, or 0 when the exact
slot was used). -/
def wallpaper_load (readOk : String → Bool) (m : monitor) : Except Int (String × Nat) :=
  if m.active = false then
    .error (-61)
  else if m.info.orientation ≥ 4 then
    .error (-22)
  else
    match wallpaper_select m with
    | .error e => .error e
    | .ok (p, altO) =>
      if readOk p = false then
        .error (-5)
      else
        let rot : Nat :=
          match altO with
          | none => 0
          | some alt =>
            (((360 : Int) - ((alt : Int) * 90 - (m.info.orientation : Int) * 90)) % 360).toNat
        .ok (p, rot)

/-- Result of one `wallpaper_generate()` call: the returned `err`, one
flag per monitor slot saying whether it contributed a tile
(`wallpapers[i] != NULL`), and whether the canvas file was written. -/
structure gen_result where
  err : Int
  tiles : List Bool
  written : Bool
  deriving DecidableEq

/-- `wallpaper_generate()` of main.c.  The per-monitor loop runs
`err = wallpaper_load(...)` and `continue`s on failure, so after the
loop `err` holds the result of the LAST active monitor's load (0 if no
monitor is active).  `canvas_ok` models the blank-canvas creation and
`MagickExtentImage` on it, `write_ok` models `MagickWriteImage`; on a
canvas failure the function jumps to cleanup returning the loop's
leftover `err`, on a write failure it returns `-EIO` (= -5). -/
def wallpaper_generate (readOk : String → Bool) (canvas_ok write_ok : Bool)
    (ms : List monitor) : gen_result :=
  let loopRes : Int × List Bool :=
    ms.foldl
      (fun acc m =>
        if m.active = false then (acc.1, acc.2 ++ [false])
        else
          match wallpaper_load readOk m with
          | .error e => (e, acc.2 ++ [false])
          | .ok _ => (0, acc.2 ++ [true]))
      (0, [])
  if canvas_ok = false then
    { err := loopRes.1, tiles := loopRes.2, written := false }
  else if write_ok = false then
    { err := -5, tiles := loopRes.2, written := false }
  else
    { err := loopRes.1, tiles := loopRes.2, written := true }

/-- Observable outcome of one `wallpaper_update()` cycle. -/
structure update_result where
  monitors : List monitor
  virtual_desktop : rectangle
  reposition_err : Option Int
  generate_ran : Bool
  generate_err : Int
  tiles : List Bool
  file_written : Bool
  install_ran : Bool
  deriving DecidableEq

/-- `wallpaper_update()` of main.c: refresh monitors (the `ms` input),
fold them into the (persistent!) `virtual_desktop` rectangle `prev`,
call `virtual_desktop_position_reposition` WITHOUT checking its return
value, then `wallpaper_generate`; `desktop_wallpaper_set` runs iff
`wallpaper_generate` returned 0. -/
def wallpaper_update (readOk : String → Bool) (canvas_ok write_ok : Bool)
    (ms : List monitor) (prev : rectangle) : update_result :=
  let d1 := virtual_desktop_update ms prev
  match virtual_desktop_position_reposition ms d1 with
  | .error e =>
    -- the C call site ignores this error and proceeds unchanged
    let g := wallpaper_generate readOk canvas_ok write_ok ms
    { monitors := ms, virtual_desktop := d1, reposition_err := some e,
      generate_ran := true, generate_err := g.err, tiles := g.tiles,
      file_written := g.written, install_ran := g.err = 0 }
  | .ok (ms2, d2) =>
    let g := wallpaper_generate readOk canvas_ok write_ok ms2
    { monitors := ms2, virtual_desktop := d2, reposition_err := none,
      generate_ran := true, generate_err := g.err, tiles := g.tiles,
      file_written := g.written, install_ran := g.err = 0 }

/-- Dimension effect of `MagickCropImage(w, W, H, x, y)`: the crop
region is clipped to the image bounds. -/
def crop_dims (picW picH W H x y : Nat) : Nat × Nat :=
  (min W (picW - x), min H (picH - y))

/-- `wallpaper_style_fit_apply()` (FIT_NO_CUT) of main.c, as its effect
on image dimensions, with the C `double` arithmetic idealized to exact
rationals; the `(unsigned long)` casts become floors.  Aspect ratios
are compared by cross-multiplication (`pic_aspect > mon_aspect` iff
`picW * monH > monW * picH` for positive sizes). -/
def wallpaper_style_fit_apply (monW monH picW picH : Nat) : Nat × Nat :=
  if picW * monH > monW * picH then
    -- FIT_WIDTH
    let scale : Rat := (picW : Rat) / (monW : Rat)
    let sW : Nat := (((picW : Rat) / scale).floor).toNat
    let sH : Nat := (((picH : Rat) / scale).floor).toNat
    if sH < monH then (monW, monH) else (sW, sH)
  else
    -- FIT_HEIGHT
    let scale : Rat := (picH : Rat) / (monH : Rat)
    let sW : Nat := (((picW : Rat) / scale).floor).toNat
    let sH : Nat := (((picH : Rat) / scale).floor).toNat
    if sW < monW then (monW, monH) else (sW, sH)

/-- `wallpaper_style_fit_edge_cut_apply()` of main.c, as its effect on
image dimensions (rational idealization as in the FIT style). -/
def wallpaper_style_fit_edge_cut_apply (monW monH picW picH : Nat) : Nat × Nat :=
  if picW * monH > monW * picH then
    -- FIT_HEIGHT: scale by height, crop the width overflow centered
    let scale : Rat := (picH : Rat) / (monH : Rat)
    let sW : Nat := (((picW : Rat) / scale).floor).toNat
    let sH : Nat := (((picH : Rat) / scale).floor).toNat
    crop_dims sW sH monW monH ((sW - monW) / 2) 0
  else
    -- FIT_WIDTH: scale by width, crop the height overflow centered
    let scale : Rat := (picW : Rat) / (monW : Rat)
    let sW : Nat := (((picW : Rat) / scale).floor).toNat
    let sH : Nat := (((picH : Rat) / scale).floor).toNat
    crop_dims sW sH monW monH 0 ((sH - monH) / 2)

/-- `wallpaper_style_stretch_apply()` of main.c: rescale to exactly the
monitor size. -/
def wallpaper_style_stretch_apply (monW monH _picW _picH : Nat) : Nat × Nat :=
  (monW, monH)

/-- `wallpaper_style_tile_apply()` of main.c, as its effect on image
dimensions: if the source covers the target on both axes, crop from
(0,0); otherwise the image is extended to the monitor size and tiled
with composites (which do not change the canvas size). -/
def wallpaper_style_tile_apply (monW monH picW picH : Nat) : Nat × Nat :=
  if picW ≥ monW ∧ picH ≥ monH then
    crop_dims picW picH monW monH 0 0
  else
    (monW, monH)

/-- `wallpaper_style_center_apply()` of main.c, as its effect on image
dimensions.  The early return mirrors the source literally:
`if (mon_width == pic_width && mon_height == pic_width) return 0;`
(the second comparison reads `pic_width`, not `pic_height`). -/
def wallpaper_style_center_apply (monW monH picW picH : Nat) : Nat × Nat :=
  if monW = picW ∧ monH = picW then
    (picW, picH)
  else if picW > monW ∧ picH > monH then
    crop_dims picW picH monW monH (picW / 2 - monW / 2) (picH / 2 - monH / 2)
  else
    (monW, monH)

/-- A default wallpaper configuration used by the concrete fixtures:
no auto-rotate, style FIT (0), landscape source "A". -/
def wpA : wallpaper_cfg :=
  { auto_rotate := false, style := 0, bg_color := none,
    files0 := some "A", files1 := none, files2 := none, files3 := none }

/-- Fixture: active landscape monitor at a given position and size. -/
def mkMon (x y w h : Int) : monitor :=
  { active := true,
    info := { x := x, y := y, width := w, height := h,
              orientation := 0, is_primary := x = 0 ∧ y = 0 },
    virt_pos := (0, 0),
    wallpaper := wpA }

/-- Fixture for C2's counterexample: two 100x100 monitors with a
100-pixel horizontal gap between them. -/
def msGap : List monitor := [mkMon 0 0 100 100, mkMon 200 0 100 100]

/-- Fixture: spec scenario S2, side-by-side monitors sharing an edge. -/
def msS2 : List monitor := [mkMon 0 0 1920 1080, mkMon 1920 0 2560 1440]

/-- Fixture: spec scenario S3, a monitor left of the primary. -/
def msS3 : List monitor := [mkMon (-1280) 0 1280 1024, mkMon 0 0 1920 1080]

/-- Fixture for C4: a 90°-rotated (portrait) monitor with auto-rotate
enabled whose only configured source is the 0° (landscape_0) slot. -/
def m90 (p : String) : monitor :=
  { active := true,
    info := { x := 0, y := 0, width := 1080, height := 1920,
              orientation := 1, is_primary := true },
    virt_pos := (0, 0),
    wallpaper := { auto_rotate := true, style := 0, bg_color := none,
                   files0 := some p, files1 := none, files2 := none, files3 := none } }

/-- Fixture for C5: an active monitor reporting ORIENT_UNKNOWN (= 5). -/
def mBadOrient : monitor :=
  { active := true,
    info := { x := 1920, y := 0, width := 1080, height := 1920,
              orientation := 5, is_primary := false },
    virt_pos := (0, 0),
    wallpaper := wpA }

/-- Fixture for C5: a loadable monitor followed by a failing (bad
orientation) monitor, which is the last active one. -/
def ms5 : List monitor := [mkMon 0 0 1920 1080, mBadOrient]

/-- Fixture for C6: an inactive monitor slot (`__display_info_update`
zeroes `info` for inactive slots). -/
def mInactive : monitor :=
  { active := false,
    info := { x := 0, y := 0, width := 0, height := 0,
              orientation := 0, is_primary := false },
    virt_pos := (0, 0),
    wallpaper := wpA }

/-- Fixture for C6: no active monitor at all. -/
def msNone : List monitor := [mInactive, mInactive]

/-- The second gap monitor of `msGap` after rebasing. -/
def mGap2R : monitor := { mkMon 200 0 100 100 with virt_pos := (200, 0) }

/-- The second monitor of `msS2` after rebasing. -/
def mS2b : monitor := { mkMon 1920 0 2560 1440 with virt_pos := (1920, 0) }

/-- The second monitor of `msS3` after rebasing. -/
def mS3b : monitor := { mkMon 0 0 1920 1080 with virt_pos := (1280, 0) }

deriving instance DecidableEq for Except

/-- Containment of rectangle `i` in rectangle `o` (with `[x, x+width]`
intervals). -/
def rect_contains (o i : rectangle) : Prop :=
  o.x ≤ i.x ∧ i.x + i.width ≤ o.x + o.width ∧
  o.y ≤ i.y ∧ i.y + i.height ≤ o.y + o.height

/-- The closed `[x, x+width] × [y, y+height]` point sets of `a` and `b`
intersect on both axes. -/
def rect_overlap (a b : rectangle) : Bool :=
  decide (b.x ≤ a.x + a.width) && decide (a.x ≤ b.x + b.width) &&
  decide (b.y ≤ a.y + a.height) && decide (a.y ≤ b.y + b.height)

/-- Disjointness of two rectangles as closed point sets: they are
separated on the x axis or on the y axis. -/
def rect_disjoint (a b : rectangle) : Prop :=
  (a.x + a.width < b.x ∨ b.x + b.width < a.x) ∨
  (a.y + a.height < b.y ∨ b.y + b.height < a.y)

instance (a b : rectangle) : Decidable (rect_disjoint a b) := by
  unfold rect_disjoint
  infer_instance

/-- Hypothesis shape for the amended C2: along the fold of
`virtual_desktop_update`, every active monitor's rectangle intersects
the desktop rectangle accumulated so far on both axes (trivially so for
the first monitor, which is adopted).  Edge-sharing layouts satisfy
this. -/
def overlap_chainb (d : rectangle) : List monitor → Bool
  | [] => true
  | m :: t =>
    if m.active then
      if d.width = 0 ∧ d.height = 0 then
        overlap_chainb (virtual_desktop_size_compute d (monitor_rect m)) t
      else
        rect_overlap d (monitor_rect m) &&
        overlap_chainb (virtual_desktop_size_compute d (monitor_rect m)) t
    else
      overlap_chainb d t

/-- Modelled from the spec (section 4.G) for the C3 refinement claim:
endpoint-inclusive membership of `p` in the interval `[s, e]` (the
spec's intervals are `[x, x+width]` with non-negative width, so `s ≤ e`
here). -/
def covers_point (s e p : Int) : Bool :=
  decide (s ≤ p) && decide (p ≤ e)

/-- Modelled from the spec (claim C3's per-axis rule): given origin and
extent of the current (`cx`, `cw`) and addend (`ax`, `aw`) intervals,
return the new `(origin, extent)`: `delta` is current's extent when the
addend covers both of current's endpoints, `|A.e - current.x|` when it
covers only current's start, the symmetric values when current covers
addend's start, and 0 when the intervals are disjoint; the new extent
is `current + addend - delta` and the new origin is the minimum. -/
def union_axis_spec (cx cw ax aw : Int) : Int × Int :=
  let ce := cx + cw
  let ae := ax + aw
  let delta : Int :=
    if covers_point ax ae cx && covers_point ax ae ce then cw
    else if covers_point ax ae cx then ((ae - cx).natAbs : Int)
    else if covers_point cx ce ax && covers_point cx ce ae then aw
    else if covers_point cx ce ax then ((ce - ax).natAbs : Int)
    else 0
  (min cx ax, cw + aw - delta)

/-- Modelled from the spec (section 4.G union rule, as restated by
claim C3): adopt the addend when current is empty, else apply the
per-axis rule independently to the width and height axes. -/
def union_rect_spec (c a : rectangle) : rectangle :=
  if c.width = 0 ∧ c.height = 0 then a
  else
    let wres := union_axis_spec c.x c.width a.x a.width
    let hres := union_axis_spec c.y c.height a.y a.height
    ⟨wres.1, hres.1, wres.2, hres.2⟩

/-- `is_axis_cover_point` decides endpoint-inclusive membership in the
unordered interval. -/
theorem is_axis_cover_point_iff (l : line) (p : Int) :
    is_axis_cover_point l p = true ↔ (min l.s l.e ≤ p ∧ p ≤ max l.s l.e) := by
  unfold is_axis_cover_point
  split <;> simp <;> omega

/-- Unfolding lemma for `virtual_desktop_update` on a cons cell. -/
theorem virtual_desktop_update_cons (m : monitor) (t : List monitor) (d : rectangle) :
    virtual_desktop_update (m :: t) d =
      virtual_desktop_update t
        (if m.active then virtual_desktop_size_compute d (monitor_rect m) else d) := by
  rfl

/-- On a non-empty accumulator the union keeps each origin coordinate at
the minimum of the two inputs. -/
theorem union_origin_min (d a : rectangle) (hne : ¬(d.width = 0 ∧ d.height = 0)) :
    (virtual_desktop_size_compute d a).x = min d.x a.x ∧
    (virtual_desktop_size_compute d a).y = min d.y a.y := by
  unfold virtual_desktop_size_compute
  rw [if_neg hne]
  constructor <;> simp only [] <;> split_ifs <;> omega

/-- With non-negative dimensions, the union's dimensions are at least
the appended rectangle's dimensions (in particular they stay
non-negative, and the union of a non-degenerate monitor rectangle is
never the empty rectangle). -/
theorem union_dims_ge (d a : rectangle) (hdw : 0 ≤ d.width) (hdh : 0 ≤ d.height)
    (haw : 0 ≤ a.width) (hah : 0 ≤ a.height) :
    a.width ≤ (virtual_desktop_size_compute d a).width ∧
    a.height ≤ (virtual_desktop_size_compute d a).height := by
  unfold virtual_desktop_size_compute
  split
  · simp
  · constructor <;> simp only [] <;> split_ifs <;>
      simp only [is_axis_cover_point_iff] at * <;> omega

/-- When the accumulator is non-empty and the appended rectangle
overlaps it on both axes, `virtual_desktop_size_compute` returns the
exact per-axis bounding hull. -/
theorem union_hull_of_overlap (d a : rectangle)
    (hdw : 0 ≤ d.width) (hdh : 0 ≤ d.height) (haw : 0 ≤ a.width) (hah : 0 ≤ a.height)
    (hne : ¬(d.width = 0 ∧ d.height = 0)) (hov : rect_overlap d a = true) :
    (virtual_desktop_size_compute d a).x = min d.x a.x ∧
    (virtual_desktop_size_compute d a).x + (virtual_desktop_size_compute d a).width =
      max (d.x + d.width) (a.x + a.width) ∧
    (virtual_desktop_size_compute d a).y = min d.y a.y ∧
    (virtual_desktop_size_compute d a).y + (virtual_desktop_size_compute d a).height =
      max (d.y + d.height) (a.y + a.height) := by
  unfold rect_overlap at hov
  simp only [Bool.and_eq_true, decide_eq_true_eq] at hov
  unfold virtual_desktop_size_compute
  rw [if_neg hne]
  refine ⟨?_, ?_, ?_, ?_⟩ <;> simp only [] <;> split_ifs <;>
    simp only [is_axis_cover_point_iff] at * <;> omega

/-- Reflexivity of rectangle containment. -/
theorem rect_contains_refl (r : rectangle) : rect_contains r r := by
  unfold rect_contains; omega

/-- Transitivity of rectangle containment. -/
theorem rect_contains_trans {a b c : rectangle}
    (h1 : rect_contains a b) (h2 : rect_contains b c) : rect_contains a c := by
  unfold rect_contains at *; omega

/-- On adoption (empty accumulator) the union is the appended
rectangle. -/
theorem union_adopt (d a : rectangle) (hemp : d.width = 0 ∧ d.height = 0) :
    virtual_desktop_size_compute d a = a := by
  unfold virtual_desktop_size_compute
  rw [if_pos hemp]

/-- An overlapping union contains both inputs. -/
theorem union_contains_of_overlap (d a : rectangle)
    (hdw : 0 ≤ d.width) (hdh : 0 ≤ d.height) (haw : 0 ≤ a.width) (hah : 0 ≤ a.height)
    (hne : ¬(d.width = 0 ∧ d.height = 0)) (hov : rect_overlap d a = true) :
    rect_contains (virtual_desktop_size_compute d a) d ∧
    rect_contains (virtual_desktop_size_compute d a) a := by
  obtain ⟨h1, h2, h3, h4⟩ := union_hull_of_overlap d a hdw hdh haw hah hne hov
  unfold rect_contains
  omega

/-- Invariant of the `virtual_desktop_update` fold under the overlap
chain: dimensions stay non-negative, a non-empty starting rectangle is
contained in (and keeps non-empty) the result, and every active monitor
of the list is contained in the result. -/
theorem virtual_desktop_update_contains (ms : List monitor) :
    ∀ d : rectangle, 0 ≤ d.width → 0 ≤ d.height →
    (∀ m ∈ ms, m.active = true → 0 < m.info.width ∧ 0 < m.info.height) →
    overlap_chainb d ms = true →
    (0 ≤ (virtual_desktop_update ms d).width ∧ 0 ≤ (virtual_desktop_update ms d).height) ∧
    (¬(d.width = 0 ∧ d.height = 0) →
      rect_contains (virtual_desktop_update ms d) d ∧
      ¬((virtual_desktop_update ms d).width = 0 ∧ (virtual_desktop_update ms d).height = 0)) ∧
    (∀ m ∈ ms, m.active = true → rect_contains (virtual_desktop_update ms d) (monitor_rect m)) := by
  induction ms with
  | nil =>
    intro d hdw hdh hpos hchain
    refine ⟨⟨hdw, hdh⟩, ?_, ?_⟩
    · intro hne
      exact ⟨rect_contains_refl d, hne⟩
    · simp [virtual_desktop_update]
  | cons m t ih =>
    intro d hdw hdh hpos hchain
    rw [virtual_desktop_update_cons]
    have hposm : ∀ m2 ∈ t, m2.active = true → 0 < m2.info.width ∧ 0 < m2.info.height :=
      fun m2 hm2 => hpos m2 (List.mem_cons_of_mem _ hm2)
    by_cases hact : m.active = true
    · have hmw := hpos m (List.mem_cons_self _ _) hact
      rw [if_pos hact]
      by_cases hemp : d.width = 0 ∧ d.height = 0
      · rw [union_adopt d _ hemp]
        have hchain2 : overlap_chainb (monitor_rect m) t = true := by
          unfold overlap_chainb at hchain
          rw [if_pos hact, if_pos hemp, union_adopt d _ hemp] at hchain
          exact hchain
        obtain ⟨hdim, hcon, hmem⟩ :=
          ih (monitor_rect m) (by simp [monitor_rect]; omega) (by simp [monitor_rect]; omega)
            hposm hchain2
        have hne2 : ¬((monitor_rect m).width = 0 ∧ (monitor_rect m).height = 0) := by
          simp [monitor_rect]; omega
        refine ⟨hdim, fun hne => absurd hemp hne, ?_⟩
        intro m2 hm2 hact2
        rcases List.mem_cons.mp hm2 with rfl | hm2
        · exact (hcon hne2).1
        · exact hmem m2 hm2 hact2
      · have hchain2 : rect_overlap d (monitor_rect m) = true ∧
            overlap_chainb (virtual_desktop_size_compute d (monitor_rect m)) t = true := by
          unfold overlap_chainb at hchain
          rw [if_pos hact, if_neg hemp] at hchain
          exact (Bool.and_eq_true _ _).mp hchain
        have hrw : 0 ≤ (monitor_rect m).width := by simp [monitor_rect]; omega
        have hrh : 0 ≤ (monitor_rect m).height := by simp [monitor_rect]; omega
        have hcon1 := union_contains_of_overlap d (monitor_rect m) hdw hdh hrw hrh hemp hchain2.1
        have hdims := union_dims_ge d (monitor_rect m) hdw hdh hrw hrh
        have e1 : (monitor_rect m).width = m.info.width := rfl
        have e2 : (monitor_rect m).height = m.info.height := rfl
        have hne1 : ¬((virtual_desktop_size_compute d (monitor_rect m)).width = 0 ∧
            (virtual_desktop_size_compute d (monitor_rect m)).height = 0) := by
          omega
        obtain ⟨hdim, hcon, hmem⟩ :=
          ih (virtual_desktop_size_compute d (monitor_rect m))
            (by omega) (by omega)
            hposm hchain2.2
        refine ⟨hdim, ?_, ?_⟩
        · intro _
          exact ⟨rect_contains_trans (hcon hne1).1 hcon1.1, (hcon hne1).2⟩
        · intro m2 hm2 hact2
          rcases List.mem_cons.mp hm2 with rfl | hm2
          · exact rect_contains_trans (hcon hne1).1 hcon1.2
          · exact hmem m2 hm2 hact2
    · rw [if_neg hact]
      have hchain2 : overlap_chainb d t = true := by
        unfold overlap_chainb at hchain
        rw [if_neg hact] at hchain
        exact hchain
      obtain ⟨hdim, hcon, hmem⟩ := ih d hdw hdh hposm hchain2
      refine ⟨hdim, hcon, ?_⟩
      intro m2 hm2 hact2
      rcases List.mem_cons.mp hm2 with rfl | hm2
      · exact absurd hact2 hact
      · exact hmem m2 hm2 hact2

/-- Invariant of the `virtual_desktop_update` fold (no overlap
assumption needed): dimensions stay non-negative, and the resulting
origin is at most every active monitor's position (the fold keeps the
running minimum in `x`/`y`), provided active monitors have positive
dimensions (as platform monitors do). -/
theorem virtual_desktop_update_origin_le (ms : List monitor) :
    ∀ d : rectangle, 0 ≤ d.width → 0 ≤ d.height →
    (∀ m ∈ ms, m.active = true → 0 < m.info.width ∧ 0 < m.info.height) →
    (0 ≤ (virtual_desktop_update ms d).width ∧ 0 ≤ (virtual_desktop_update ms d).height) ∧
    (¬(d.width = 0 ∧ d.height = 0) →
      (virtual_desktop_update ms d).x ≤ d.x ∧ (virtual_desktop_update ms d).y ≤ d.y ∧
      ¬((virtual_desktop_update ms d).width = 0 ∧ (virtual_desktop_update ms d).height = 0)) ∧
    (∀ m ∈ ms, m.active = true →
      (virtual_desktop_update ms d).x ≤ m.info.x ∧ (virtual_desktop_update ms d).y ≤ m.info.y) := by
  induction ms with
  | nil =>
    intro d hdw hdh hpos
    refine ⟨⟨hdw, hdh⟩, ?_, ?_⟩
    · intro hne
      exact ⟨le_refl _, le_refl _, hne⟩
    · simp [virtual_desktop_update]
  | cons m t ih =>
    intro d hdw hdh hpos
    rw [virtual_desktop_update_cons]
    have hposm : ∀ m2 ∈ t, m2.active = true → 0 < m2.info.width ∧ 0 < m2.info.height :=
      fun m2 hm2 => hpos m2 (List.mem_cons_of_mem _ hm2)
    by_cases hact : m.active = true
    · have hmw := hpos m (List.mem_cons_self _ _) hact
      rw [if_pos hact]
      have e1 : (monitor_rect m).width = m.info.width := rfl
      have e2 : (monitor_rect m).height = m.info.height := rfl
      have e3 : (monitor_rect m).x = m.info.x := rfl
      have e4 : (monitor_rect m).y = m.info.y := rfl
      by_cases hemp : d.width = 0 ∧ d.height = 0
      · rw [union_adopt d _ hemp]
        obtain ⟨hdim, horig, hmem⟩ := ih (monitor_rect m) (by omega) (by omega) hposm
        have hne2 : ¬((monitor_rect m).width = 0 ∧ (monitor_rect m).height = 0) := by omega
        refine ⟨hdim, fun hne => absurd hemp hne, ?_⟩
        intro m2 hm2 hact2
        rcases List.mem_cons.mp hm2 with rfl | hm2
        · obtain ⟨ha, hb, _⟩ := horig hne2
          omega
        · exact hmem m2 hm2 hact2
      · have hdims := union_dims_ge d (monitor_rect m) hdw hdh (by omega) (by omega)
        have horig1 := union_origin_min d (monitor_rect m) hemp
        have hne1 : ¬((virtual_desktop_size_compute d (monitor_rect m)).width = 0 ∧
            (virtual_desktop_size_compute d (monitor_rect m)).height = 0) := by omega
        obtain ⟨hdim, horig, hmem⟩ :=
          ih (virtual_desktop_size_compute d (monitor_rect m)) (by omega) (by omega) hposm
        obtain ⟨ha, hb, _⟩ := horig hne1
        refine ⟨hdim, ?_, ?_⟩
        · intro _
          refine ⟨?_, ?_, (horig hne1).2.2⟩ <;> omega
        · intro m2 hm2 hact2
          rcases List.mem_cons.mp hm2 with rfl | hm2
          · omega
          · exact hmem m2 hm2 hact2
    · rw [if_neg hact]
      obtain ⟨hdim, horig, hmem⟩ := ih d hdw hdh hposm
      refine ⟨hdim, horig, ?_⟩
      intro m2 hm2 hact2
      rcases List.mem_cons.mp hm2 with rfl | hm2
      · exact absurd hact2 hact
      · exact hmem m2 hm2 hact2

/-- Claim C1 (code bug): the Style Engine does NOT always return an
image of the monitor's size.  `wallpaper_style_center_apply`'s early
return compares `mon_height` against `pic_width` (a typo for
`pic_height`), so for a 100x37 source on a 100x100 monitor with style
CENTER the source is returned unchanged at 100x37 instead of being
extended to the 100x100 target. -/
theorem C1_center_typo_eval :
    wallpaper_style_center_apply 100 100 100 37 = (100, 37) ∧
    wallpaper_style_center_apply 100 100 100 37 ≠ (100, 100) := by decide

/-- Claim C2 (counterexample): for two active 100x100 monitors with a
100-pixel horizontal gap, the computed virtual desktop is only 200 wide
(the union rule adds extents and ignores the gap), so after rebasing
the second monitor ends at x = 300 > canvas.width = 200. -/
theorem C2_counterexample_gap :
    virtual_desktop_update msGap ⟨0, 0, 0, 0⟩ = ⟨0, 0, 200, 100⟩ ∧
    virtual_desktop_position_reposition msGap ⟨0, 0, 200, 100⟩ =
      .ok ([mkMon 0 0 100 100, mGap2R], ⟨0, 0, 200, 100⟩) ∧
    mGap2R.active = true ∧
    mGap2R.virt_pos.1 + mGap2R.info.width = 300 ∧
    ¬ ((300 : Int) ≤ 200) := by decide

/-- Claim C2 (amended): after the virtual desktop is computed and the
monitors are rebased, every active monitor satisfies
`virt_pos + size ≤ canvas size`, provided active monitors have positive
dimensions and, in enumeration order, each active monitor's rectangle
intersects the desktop rectangle accumulated so far on both axes (as in
every layout whose monitors share edges; the gap counterexample shows
the restriction is needed). -/
theorem C2_bounded_when_overlap_chain (ms ms2 : List monitor) (d2 : rectangle)
    (hpos : ∀ m ∈ ms, m.active = true → 0 < m.info.width ∧ 0 < m.info.height)
    (hchain : overlap_chainb ⟨0, 0, 0, 0⟩ ms = true)
    (hrep : virtual_desktop_position_reposition ms (virtual_desktop_update ms ⟨0, 0, 0, 0⟩) =
      .ok (ms2, d2)) :
    ∀ m ∈ ms2, m.active = true →
      m.virt_pos.1 + m.info.width ≤ d2.width ∧ m.virt_pos.2 + m.info.height ≤ d2.height := by
  obtain ⟨hdim, _, hmem⟩ :=
    virtual_desktop_update_contains ms ⟨0, 0, 0, 0⟩ (by simp) (by simp) hpos hchain
  unfold virtual_desktop_position_reposition at hrep
  split at hrep
  · exact absurd hrep (by simp)
  · simp only [Except.ok.injEq, Prod.mk.injEq] at hrep
    obtain ⟨hms2, hd2⟩ := hrep
    subst hms2 hd2
    intro m hm hact
    obtain ⟨m0, hm0, heq⟩ := List.mem_map.mp hm
    by_cases hact0 : m0.active = true
    · rw [if_pos hact0] at heq
      subst heq
      have hc := hmem m0 hm0 hact0
      simp only [rect_contains, monitor_rect] at hc
      dsimp only
      constructor <;> omega
    · rw [if_neg hact0] at heq
      subst heq
      exact absurd hact hact0

/-- Claim C2 (witness): scenario S2 of the spec, two edge-sharing
monitors; the second monitor's rebased extent fits the 4480x1440
canvas. -/
theorem C2_bounded_witness :
    mS2b.virt_pos.1 + mS2b.info.width ≤ (4480 : Int) ∧
    mS2b.virt_pos.2 + mS2b.info.height ≤ (1440 : Int) :=
  C2_bounded_when_overlap_chain msS2 [mkMon 0 0 1920 1080, mS2b] ⟨0, 0, 4480, 1440⟩
    (by decide) (by decide) (by decide) mS2b (by decide) (by decide)

/-- Claim C3: `virtual_desktop_size_compute` (the source's union_rect)
agrees with the per-axis rule stated by the spec (`union_rect_spec`,
built literally from the claim's wording) on all rectangles with
non-negative dimensions. -/
theorem C3_union_rect_matches_spec (c a : rectangle)
    (hcw : 0 ≤ c.width) (hch : 0 ≤ c.height) (haw : 0 ≤ a.width) (hah : 0 ≤ a.height) :
    virtual_desktop_size_compute c a = union_rect_spec c a := by
  unfold virtual_desktop_size_compute union_rect_spec union_axis_spec covers_point
  split
  · rfl
  · simp only [rectangle.mk.injEq]
    refine ⟨?_, ?_, ?_, ?_⟩ <;>
      split_ifs <;>
      simp only [is_axis_cover_point_iff, Bool.and_eq_true, decide_eq_true_eq] at * <;>
      omega

/-- Claim C3 (witness): the refinement holds at scenario S2's two
monitor rectangles. -/
theorem C3_union_rect_matches_spec_witness :
    virtual_desktop_size_compute ⟨0, 0, 1920, 1080⟩ ⟨1920, 0, 2560, 1440⟩ =
      union_rect_spec ⟨0, 0, 1920, 1080⟩ ⟨1920, 0, 2560, 1440⟩ :=
  C3_union_rect_matches_spec ⟨0, 0, 1920, 1080⟩ ⟨1920, 0, 2560, 1440⟩
    (by decide) (by decide) (by decide) (by decide)

/-- Claim C4 (counterexample): for a monitor with orientation 90°,
auto_rotate on and only the 0° source set, `wallpaper_load` returns the
0° source with rotation 90° — `(360 - (0*90 - 1*90)) % 360 = 90` — not
the 270° stated by the claim. -/
theorem C4_rotation_counterexample :
    wallpaper_load (fun _ => true) (m90 "A") = .ok ("A", 90) ∧
    wallpaper_load (fun _ => true) (m90 "A") ≠ .ok ("A", 270) := by
  decide

/-- Claim C4 (amended): for a monitor with orientation 90°, auto_rotate
true and only the 0° (landscape_0) source file set, the resolver
returns that source together with rotation 90° (the code's
`(360 - (alter*90 - orient*90)) % 360` at alter = 0, orient = 1). -/
theorem C4_amended_rotation_90 (p : String) (readOk : String → Bool)
    (hr : readOk p = true) :
    wallpaper_load readOk (m90 p) = .ok (p, 90) := by
  simp [wallpaper_load, wallpaper_select, wallpaper_auto_rotate, wallpaper_cfg.files, m90, hr]

/-- Claim C4 (witness): the amended claim at source path "A". -/
theorem C4_amended_rotation_90_witness :
    wallpaper_load (fun _ => true) (m90 "A") = .ok ("A", 90) :=
  C4_amended_rotation_90 "A" (fun _ => true) rfl

/-- Claim C5 (code bug): in a cycle where monitor 0 renders fine and
the last active monitor (index 1, unknown orientation) fails,
`wallpaper_generate` still composes and writes the canvas, but it
returns the leftover `-EINVAL` from the failing monitor's
`wallpaper_load`, so `wallpaper_update` returns early and the
wallpaper-install step does NOT run. -/
theorem C5_stale_error_skips_install :
    (wallpaper_update (fun _ => true) true true ms5 ⟨0, 0, 0, 0⟩).tiles = [true, false] ∧
    (wallpaper_update (fun _ => true) true true ms5 ⟨0, 0, 0, 0⟩).file_written = true ∧
    (wallpaper_update (fun _ => true) true true ms5 ⟨0, 0, 0, 0⟩).generate_err = -22 ∧
    (wallpaper_update (fun _ => true) true true ms5 ⟨0, 0, 0, 0⟩).install_ran = false := by
  decide

/-- Claim C6 (code bug): with no active monitor the virtual desktop
stays zero-sized and `virtual_desktop_position_reposition` fails with
`-EINVAL` (EmptyLayout), but `wallpaper_update` ignores that return
value: the cycle is NOT skipped — `wallpaper_generate` still runs (its
zero-size canvas extension fails, modelled by `canvas_ok = false`, so
no file is written, and its error remains 0) and the wallpaper-install
step still runs on the stale output path. -/
theorem C6_cycle_not_skipped :
    (wallpaper_update (fun _ => true) false true msNone ⟨0, 0, 0, 0⟩).reposition_err =
      some (-22) ∧
    (wallpaper_update (fun _ => true) false true msNone ⟨0, 0, 0, 0⟩).generate_ran = true ∧
    (wallpaper_update (fun _ => true) false true msNone ⟨0, 0, 0, 0⟩).file_written = false ∧
    (wallpaper_update (fun _ => true) false true msNone ⟨0, 0, 0, 0⟩).install_ran = true := by
  decide

/-- Claim C7 (code bug): the global `virtual_desktop` rectangle is
never reset between cycles, so with the same monitor layout (spec
scenario S3: a 1280x1024 monitor at x = -1280 next to a 1920x1080
primary) the first cycle's canvas is 3200x1080 but the second cycle
folds the monitors into the already-rebased rectangle and yields
4480x1080 — residual state is NOT discarded and consecutive cycles on
the same layout differ. -/
theorem C7_residual_desktop_grows :
    (wallpaper_update (fun _ => true) true true msS3 ⟨0, 0, 0, 0⟩).virtual_desktop =
      ⟨0, 0, 3200, 1080⟩ ∧
    (wallpaper_update (fun _ => true) true true msS3 ⟨0, 0, 3200, 1080⟩).virtual_desktop =
      ⟨0, 0, 4480, 1080⟩ ∧
    ((4480 : Int) ≠ 3200) := by
  decide

/-- Claim C8: after layout and rebasing, every active monitor's canvas
position is non-negative (active monitors have positive dimensions, as
the data model guarantees for platform monitors). -/
theorem C8_virt_pos_nonneg (ms ms2 : List monitor) (d2 : rectangle)
    (hpos : ∀ m ∈ ms, m.active = true → 0 < m.info.width ∧ 0 < m.info.height)
    (hrep : virtual_desktop_position_reposition ms (virtual_desktop_update ms ⟨0, 0, 0, 0⟩) =
      .ok (ms2, d2)) :
    ∀ m ∈ ms2, m.active = true → 0 ≤ m.virt_pos.1 ∧ 0 ≤ m.virt_pos.2 := by
  obtain ⟨hdim, _, hmem⟩ :=
    virtual_desktop_update_origin_le ms ⟨0, 0, 0, 0⟩ (by simp) (by simp) hpos
  unfold virtual_desktop_position_reposition at hrep
  split at hrep
  · exact absurd hrep (by simp)
  · simp only [Except.ok.injEq, Prod.mk.injEq] at hrep
    obtain ⟨hms2, hd2⟩ := hrep
    subst hms2 hd2
    intro m hm hact
    obtain ⟨m0, hm0, heq⟩ := List.mem_map.mp hm
    by_cases hact0 : m0.active = true
    · rw [if_pos hact0] at heq
      subst heq
      have hc := hmem m0 hm0 hact0
      dsimp only
      constructor <;> omega
    · rw [if_neg hact0] at heq
      subst heq
      exact absurd hact hact0

/-- Claim C8 (witness): scenario S3 rebases the primary monitor to
canvas position (1280, 0), which is non-negative. -/
theorem C8_virt_pos_nonneg_witness :
    0 ≤ mS3b.virt_pos.1 ∧ 0 ≤ mS3b.virt_pos.2 :=
  C8_virt_pos_nonneg msS3 [{ mkMon (-1280) 0 1280 1024 with virt_pos := (0, 0) }, mS3b]
    ⟨0, 0, 3200, 1080⟩ (by decide) (by decide) mS3b (by decide) (by decide)

/-- Claim C9 (counterexample): union_rect is NOT commutative on all
pairs of disjoint rectangles: the empty rectangle at the origin and a
1x1 rectangle at (5,5) are disjoint, yet union in one order adopts the
addend (result at (5,5)) while the other order keeps the minimum origin
(result at (0,0)). -/
theorem C9_union_not_comm_counterexample :
    rect_disjoint ⟨0, 0, 0, 0⟩ ⟨5, 5, 1, 1⟩ ∧
    virtual_desktop_size_compute ⟨0, 0, 0, 0⟩ ⟨5, 5, 1, 1⟩ ≠
      virtual_desktop_size_compute ⟨5, 5, 1, 1⟩ ⟨0, 0, 0, 0⟩ := by
  decide

/-- Claim C9 (amended): `virtual_desktop_size_compute` is commutative
on disjoint rectangles with non-negative dimensions, provided neither
is the empty rectangle (width and height both zero — which triggers the
asymmetric adoption rule, as the counterexample shows), and it is
idempotent under self-union for every rectangle. -/
theorem C9_union_comm_and_idem :
    (∀ a b : rectangle, 0 ≤ a.width → 0 ≤ a.height → 0 ≤ b.width → 0 ≤ b.height →
      ¬(a.width = 0 ∧ a.height = 0) → ¬(b.width = 0 ∧ b.height = 0) →
      rect_disjoint a b →
      virtual_desktop_size_compute a b = virtual_desktop_size_compute b a) ∧
    (∀ r : rectangle, virtual_desktop_size_compute r r = r) := by
  constructor
  · intro a b haw hah hbw hbh hna hnb _
    unfold virtual_desktop_size_compute
    rw [if_neg hna, if_neg hnb]
    simp only [rectangle.mk.injEq]
    refine ⟨?_, ?_, ?_, ?_⟩ <;>
      split_ifs <;>
      simp only [is_axis_cover_point_iff] at * <;>
      omega
  · intro r
    obtain ⟨rx, ry, rw, rh⟩ := r
    unfold virtual_desktop_size_compute
    split
    · simp_all
    · simp only [rectangle.mk.injEq]
      refine ⟨?_, ?_, ?_, ?_⟩ <;>
        split_ifs <;>
        simp only [is_axis_cover_point_iff] at * <;>
        omega

/-- Claim C9 (witness): the amended commutativity at two separated
squares and idempotence at a concrete rectangle. -/
theorem C9_union_comm_and_idem_witness :
    virtual_desktop_size_compute ⟨0, 0, 10, 10⟩ ⟨20, 0, 5, 5⟩ =
      virtual_desktop_size_compute ⟨20, 0, 5, 5⟩ ⟨0, 0, 10, 10⟩ ∧
    virtual_desktop_size_compute ⟨3, 4, 7, 8⟩ ⟨3, 4, 7, 8⟩ = ⟨3, 4, 7, 8⟩ :=
  ⟨C9_union_comm_and_idem.1 ⟨0, 0, 10, 10⟩ ⟨20, 0, 5, 5⟩ (by decide) (by decide)
      (by decide) (by decide) (by decide) (by decide) (by decide),
   C9_union_comm_and_idem.2 ⟨3, 4, 7, 8⟩⟩

/-- Claim C10: the exact-orientation lookup treats an empty-string path
as unset and falls through to auto-rotate, but the auto-rotate fallback
accepts any non-NULL entry including an empty string; hence a monitor
whose only non-NULL source entries are empty strings resolves to the
empty path and `wallpaper_load` fails at the image-read step with
`-EIO` (LoadFailed) instead of reporting `-ENODATA` (NoSource). -/
theorem C10_empty_string_load_eio (m : monitor) (readOk : String → Bool)
    (hact : m.active = true) (hor : m.info.orientation < 4)
    (har : m.wallpaper.auto_rotate = true)
    (h0 : m.wallpaper.files0 = none ∨ m.wallpaper.files0 = some "")
    (h1 : m.wallpaper.files1 = none ∨ m.wallpaper.files1 = some "")
    (h2 : m.wallpaper.files2 = none ∨ m.wallpaper.files2 = some "")
    (h3 : m.wallpaper.files3 = none ∨ m.wallpaper.files3 = some "")
    (hsome : m.wallpaper.files0.isSome ∨ m.wallpaper.files1.isSome ∨
      m.wallpaper.files2.isSome ∨ m.wallpaper.files3.isSome)
    (hread : readOk "" = false) :
    wallpaper_load readOk m = .error (-5) := by
  have ho : m.info.orientation = 0 ∨ m.info.orientation = 1 ∨
      m.info.orientation = 2 ∨ m.info.orientation = 3 := by omega
  rcases ho with ho | ho | ho | ho <;>
    rcases h0 with h0 | h0 <;> rcases h1 with h1 | h1 <;>
    rcases h2 with h2 | h2 <;> rcases h3 with h3 | h3 <;>
    simp_all [wallpaper_load, wallpaper_select, wallpaper_auto_rotate, wallpaper_cfg.files]

/-- Claim C10 (witness): an active landscape monitor whose only source
entry is an empty string in the 0° slot fails with `-EIO`. -/
theorem C10_empty_string_load_eio_witness :
    wallpaper_load (fun _ => false)
      { active := true,
        info := { x := 0, y := 0, width := 1920, height := 1080,
                  orientation := 0, is_primary := true },
        virt_pos := (0, 0),
        wallpaper := { auto_rotate := true, style := 0, bg_color := none,
                       files0 := some "", files1 := none, files2 := none,
                       files3 := none } } = .error (-5) :=
  C10_empty_string_load_eio _ (fun _ => false) rfl (by decide) rfl
    (Or.inr rfl) (Or.inl rfl) (Or.inl rfl) (Or.inl rfl) (Or.inl (by decide)) rfl
